import Mathlib

/-!
Shallow embedding of the `ai-chat-service` of the `jiaa-fastapi` repository
(`src/ai-chat-service/main.py` and `src/ai-chat-service/database.py`).

Modelling conventions:
* Python `Optional[T]` becomes `Option T`; Python truthiness tests (`if x:`)
  are translated explicitly (`pyTruthyStr`, `pyTruthyNat`, `Option.isSome`).
* The external collaborators (AWS Bedrock embedding and completion calls, the
  SQL engine executing the pgvector query, the wall clock, `uuid` parsing and
  `uuid4` generation) are oracles packaged in environment structures; every
  other step is translated from the source.
* Embedding vectors are exact rationals.  A similarity score is an `NFloat`:
  either `nan` (the IEEE result of the `0/0` the fallback performs on a
  zero-norm vector; numpy emits a warning, not an exception) or an exact
  rational `val q`.  For a non-degenerate pair of vectors the code computes
  `dot/(‖q‖*‖m‖)`; since `√` leaves ℚ we store the strictly monotone image
  `d*|d|/(‖q‖²*‖m‖²)` of that value, which preserves sign, zero and the
  comparison order used by the sort, exactly.
* Python's `sort(..., reverse=True)` / `sorted(..., reverse=True)` is a stable
  descending sort that swaps two elements only when their keys compare with
  `<`; all comparisons against `nan` are false.  `pySortDesc` is a stable
  insertion sort with exactly that swapping rule (any stable comparison sort
  agrees with it on the two-element lists used in counterexamples).
* Database rows live in plain lists; `query(...).first()` is `List.find?`,
  filters are `List.filter`.  Auto-increment ids are modelled as the row
  count, and timestamp columns filled by the database are taken from the
  environment (`now`) since the wall clock is outside the model.
-/

namespace AiChat

/-- Python truthiness of an optional string: `None` and `""` are falsy. -/
def pyTruthyStr : Option String → Bool
  | none => false
  | some s => s != ""

/-- Python truthiness of an optional integer: `None` and `0` are falsy. -/
def pyTruthyNat : Option Nat → Bool
  | none => false
  | some n => n != 0

/-- Result of a floating-point similarity computation: IEEE `nan` or an exact
rational representative (see the file header for the monotone encoding). -/
inductive NFloat where
  | nan : NFloat
  | val : ℚ → NFloat
deriving DecidableEq

/-- IEEE `<` on scores: any comparison involving `nan` is false. -/
def nfLt : NFloat → NFloat → Bool
  | NFloat.val a, NFloat.val b => decide (a < b)
  | _, _ => false

/-- IEEE `≥` on scores: any comparison involving `nan` is false. -/
def nfGe : NFloat → NFloat → Bool
  | NFloat.val a, NFloat.val b => decide (b ≤ a)
  | _, _ => false

/-- Dot product of two embedding vectors (`np.dot`). -/
def dotProd (xs ys : List ℚ) : ℚ :=
  (List.zipWith (fun a b => a * b) xs ys).sum

/-- Squared Euclidean norm; `np.linalg.norm xs = √(normSq xs)`. -/
def normSq (xs : List ℚ) : ℚ :=
  dotProd xs xs

/-- Fallback cosine similarity `np.dot(q,m)/(np.linalg.norm(q)*np.linalg.norm(m))`
(main.py lines 253-255).  When the denominator is zero the float division
`0.0/0.0` yields `nan` (numpy warns, it does not raise); otherwise we store the
order-preserving exact encoding `d*|d|/(‖q‖²*‖m‖²)` of the real quotient. -/
def cosine_similarity (q m : List ℚ) : NFloat :=
  let d := dotProd q m
  let den := normSq q * normSq m
  if den = 0 then NFloat.nan else NFloat.val (d * |d| / den)

/-- Insert one element into an already-processed list, moving it past an
element only when the keys genuinely compare with `<` (Python stable
descending sort step). -/
def insertDescBy (key : α → NFloat) (x : α) : List α → List α
  | [] => [x]
  | y :: ys => if nfLt (key x) (key y) then y :: insertDescBy key x ys else x :: y :: ys

/-- Stable descending sort with IEEE comparisons, modelling
`sorted(rows, key=..., reverse=True)` and `list.sort(key=..., reverse=True)`. -/
def pySortDesc (key : α → NFloat) : List α → List α
  | [] => []
  | x :: xs => insertDescBy key x (pySortDesc key xs)

/-- Boolean check that no adjacent pair of a list strictly increases
(every adjacent pair `a, b` has `¬ key a < key b`). -/
def noAdjLt (key : α → NFloat) : List α → Bool
  | [] => true
  | [_] => true
  | a :: b :: t => !nfLt (key a) (key b) && noAdjLt key (b :: t)

/-- Boolean statement that a list is sorted in descending order of key:
every adjacent pair compares with `≥` (false as soon as a `nan` occurs in a
pair, since IEEE `≥` is then false). -/
def sortedDescBy (key : α → NFloat) : List α → Bool
  | [] => true
  | [_] => true
  | a :: b :: t => nfGe (key a) (key b) && sortedDescBy key (b :: t)

/-- Row of the `conversation_messages` table (database.py lines 72-82). -/
structure ConversationMessage where
  id : Nat
  session_id : String
  user_id : Option String
  role : String
  content : String
  embedding : Option (List ℚ)
  created_at : Option String
deriving DecidableEq

/-- Row of the `personalities` table (database.py lines 44-53). -/
structure Personality where
  id : Nat
  name : String
  description : Option String
  system_prompt : String
deriving DecidableEq

/-- Row of the `session_configs` table (database.py lines 56-69).  The
`created_at`/`updated_at` timestamp columns are outside the model (wall
clock). -/
structure SessionConfig where
  session_id : String
  user_id : Option String
  personality_id : Option Nat
  mode : String
deriving DecidableEq

/-- The persistent database state: the three tables of §3 of the design. -/
structure DB where
  personalities : List Personality
  configs : List SessionConfig
  messages : List ConversationMessage
deriving DecidableEq

/-- Row produced by the pgvector SQL query of `search_similar_messages`
(main.py lines 188-211): the message columns plus the similarity computed by
the database engine (`1 - (embedding <=> :query_vec::vector)`, a float8 that
the model keeps abstract as an `NFloat`; the SQL `WHERE embedding IS NOT NULL`
makes it non-null, so the `row[6] is None` guard at line 222 is dead). -/
structure NativeRow where
  id : Nat
  session_id : String
  user_id : Option String
  role : String
  content : String
  created_at : Option String
  similarity : NFloat
deriving DecidableEq

/-- One entry of the list returned by `search_similar_messages`
(main.py lines 217-224 and 266-273). -/
structure SearchResult where
  id : Nat
  session_id : String
  role : String
  content : String
  similarity : NFloat
  created_at : Option String
deriving DecidableEq

/-- Intermediate `{"message": msg, "similarity": ...}` dict of the fallback
path (main.py lines 256-259). -/
structure ScoredMessage where
  message : ConversationMessage
  similarity : NFloat
deriving DecidableEq

/-- Environment of `search_similar_messages`: the embedding provider
(`generate_embedding`, which catches its own failures and returns `None`),
Python `uuid.UUID` parsing (returning the canonical string form), the SQL
engine executing the pgvector query for a given optional user filter (may
fail), the table contents read by the fallback, and whether the fallback
query itself fails. -/
structure SearchEnv where
  gen : String → Option (List ℚ)
  parseUUID : String → Option String
  native : Option String → Except Unit (List NativeRow)
  table : List ConversationMessage
  fallbackFails : Bool

/-- Native-path result assembly (main.py lines 214-226): sort the fetched rows
by the similarity column descending, truncate to `limit`, convert to dicts. -/
def nativeResults (rows : List NativeRow) (limit : Nat) : List SearchResult :=
  ((pySortDesc (fun r => r.similarity) rows).take limit).map
    (fun r => ⟨r.id, r.session_id, r.role, r.content, r.similarity, r.created_at⟩)

/-- Fallback candidate query (main.py lines 233-244): all messages with a
non-null embedding, filtered to the user when the supplied id parses as a
UUID, with a malformed id silently dropped. -/
def fallbackCandidates (env : SearchEnv) (user_id : Option String) : List ConversationMessage :=
  let base := env.table.filter (fun m => m.embedding.isSome)
  if pyTruthyStr user_id then
    match env.parseUUID (user_id.getD "") with
    | some u => base.filter (fun m => m.user_id == some u)
    | none => base
  else base

/-- Fallback similarity computation (main.py lines 247-259): score every
candidate whose embedding is truthy (non-null and non-empty). -/
def fallbackScored (query_vec : List ℚ) (msgs : List ConversationMessage) : List ScoredMessage :=
  msgs.filterMap (fun m =>
    match m.embedding with
    | some e => if e.isEmpty then none else some ⟨m, cosine_similarity query_vec e⟩
    | none => none)

/-- Fallback result assembly (main.py lines 261-275): sort descending by
score, truncate to `limit`, convert to dicts. -/
def fallbackResults (query_vec : List ℚ) (msgs : List ConversationMessage) (limit : Nat) :
    List SearchResult :=
  ((pySortDesc (fun s => s.similarity) (fallbackScored query_vec msgs)).take limit).map
    (fun s => ⟨s.message.id, s.message.session_id, s.message.role, s.message.content,
               s.similarity, s.message.created_at⟩)

/-- `search_similar_messages` (main.py lines 161-281).  A missing (or empty,
by the truthiness test at line 178) query embedding degrades to the empty
list; a failing native query falls back to the in-process scan; a failing
fallback query degrades to the empty list.  Every `except` block of the
source produces a value, so the function returns a plain list. -/
def search_similar_messages (env : SearchEnv) (query : String) (user_id : Option String)
    (limit : Nat) : List SearchResult :=
  match env.gen query with
  | none => []
  | some query_embedding =>
    if query_embedding.isEmpty then []
    else
      let nativeArg : Option String :=
        if pyTruthyStr user_id then env.parseUUID (user_id.getD "") else none
      match env.native nativeArg with
      | Except.ok rows => nativeResults rows limit
      | Except.error _ =>
        if env.fallbackFails then []
        else fallbackResults query_embedding (fallbackCandidates env user_id) limit

/-- Default completion model id (main.py line 41). -/
def DEFAULT_MODEL_ID : String := "anthropic.claude-3-haiku-20240307-v1:0"

/-- Fixed interview prompt used in structured-interview (roadmap) mode
(main.py lines 47-83).  The literal is assembled line by line; `\x27`, `\x22`
(written `\"`), `\x7b` and `\x7d` encode the apostrophes, quotes and braces
of the source text. -/
def ROADMAP_SYSTEM_PROMPT : String :=
  String.intercalate "\n" [
    "# Role",
    "당신은 PC/랩탑 환경 기반의 학습자를 위한 [로드맵 생성 인터뷰어]입니다.",
    "",
    "# Rules & Constraints",
    "1. **인터뷰 원칙**: ",
    "   - 한 번에 \x27하나의 질문\x27만 던집니다. ",
    "   - 질문 시 인사, 요약, 부연 설명 없이 오직 질문만 출력합니다.",
    "2. **범위 제한**: PC/랩탑 활용 활동으로만 제한하며, 오프라인 활동 감지 시 재질문을 던집니다.",
    "3. **상태 체크리스트**: [A] 총목표, [B] 세부 목표, [C] 총 기간, [D] 일일 학습 시간",
    "",
    "# Interaction Workflow (반드시 순서 준수)",
    "",
    "### 1단계: 정보 수집 (Collection)",
    "- [A]~[D] 중 누락된 정보를 순차적으로 하나씩 질문합니다.",
    "",
    "### 2단계: 요약 및 확정 (Confirmation & Revision)",
    "- [A]~[D] 정보가 모두 수집되면, 사용자에게 수집된 내용을 요약하여 보여줍니다.",
    "- **중요**: 요약 후 반드시 \"이대로 로드맵을 생성할까요? 수정하고 싶은 부분이 있다면 말씀해 주세요.\"라고 묻습니다.",
    "- 사용자가 수정을 요청하면 해당 항목을 업데이트하고 다시 2단계(요약 및 확정)를 반복합니다.",
    "",
    "### 3단계: 최종 출력 (Final Output)",
    "- 사용자가 \"됐어\", \"생성해줘\", \"확인\" 등 승인 의사를 표시했을 때만 JSON 로드맵을 출력합니다.",
    "- 출력 시 다른 텍스트 없이 오직 JSON 데이터만 출력하고 종료합니다.",
    "",
    "# Output Format (JSON Only)",
    "\x7b",
    "  \"roadmap\": [",
    "    \x7b",
    "      \"day\": number,",
    "      \"content\": \"해당 일차에 수행할 PC 기반 학습 내용\",",
    "      \"time\": \"사용자가 확정한 [D] 값\"",
    "    \x7d",
    "  ]",
    "\x7d",
    "",
    "# Instruction to Start",
    "가장 먼저 [A] 총목표를 묻는 질문부터 시작하세요."]

/-- Session-configuration lookup `get_session_config` (main.py lines 86-88);
`query(...).first()` is the first matching row. -/
def get_session_config (session_id : String) (db : DB) : Option SessionConfig :=
  db.configs.find? (fun c => c.session_id == session_id)

/-- Persona lookup of the default persona and the final fallback string
(main.py lines 298-303). -/
def defaultPersonalityPrompt (db : DB) : String :=
  match db.personalities.find? (fun p => p.name == "베타인") with
  | some default_personality => default_personality.system_prompt
  | none => "당신은 도움이 되는 AI 어시스턴트입니다."

/-- Effective system prompt resolution `get_system_prompt`
(main.py lines 284-303).  Note the Python truthiness test
`if config and config.personality_id:` which treats a bound id of `0` as
unbound. -/
def get_system_prompt (session_id : String) (db : DB) : String :=
  let config := get_session_config session_id db
  if config.any (fun c => c.mode == "roadmap") then
    ROADMAP_SYSTEM_PROMPT
  else if config.any (fun c => pyTruthyNat c.personality_id) then
    match config.bind (fun c => c.personality_id.bind
        (fun pid => db.personalities.find? (fun p => p.id == pid))) with
    | some personality => personality.system_prompt
    | none => defaultPersonalityPrompt db
  else
    defaultPersonalityPrompt db

/-- Resolution policy of §4.1 of the specification, written from the spec's
words: mode structured-interview returns the fixed interview prompt ignoring
persona; else a bound and existing persona's prompt; else the designated
default persona's ("베타인") prompt when present; else a generic fallback
string.  Stated separately from `get_system_prompt` so the priority chain can
be compared with the code. -/
def effectivePromptSpec (db : DB) (session_id : String) : String :=
  match get_session_config session_id db with
  | some c =>
    if c.mode == "roadmap" then ROADMAP_SYSTEM_PROMPT
    else
      match c.personality_id.bind
          (fun pid => db.personalities.find? (fun p => p.id == pid)) with
      | some p => p.system_prompt
      | none =>
        match db.personalities.find? (fun p => p.name == "베타인") with
        | some d => d.system_prompt
        | none => "당신은 도움이 되는 AI 어시스턴트입니다."
  | none =>
    match db.personalities.find? (fun p => p.name == "베타인") with
    | some d => d.system_prompt
    | none => "당신은 도움이 되는 AI 어시스턴트입니다."

/-- One transcript message `{"role": ..., "content": ...}`. -/
structure ChatMsg where
  role : String
  content : String
deriving DecidableEq

/-- Cache truncation shared verbatim by both delivery surfaces
(main.py lines 628-630 and 789-791): `messages[-50:]` keeps the most recent
50 entries when the transcript exceeds 50. -/
def truncate50 (messages : List ChatMsg) : List ChatMsg :=
  if messages.length > 50 then messages.drop (messages.length - 50) else messages

/-- Session-id defaulting (main.py lines 531-533 and 699-701): a missing or
empty (falsy) id is replaced by a freshly generated uuid4 string. -/
def resolveSessionId (freshId : String) (session_id : Option String) : String :=
  if pyTruthyStr session_id then session_id.getD "" else freshId

/-- Validation of caller-supplied history entries (main.py lines 561-566):
entries that are not dicts carrying both `role` and `content` are dropped;
such entries are modelled as `none`. -/
def validHistory (h : List (Option ChatMsg)) : List ChatMsg :=
  h.filterMap id

/-- Transcript assembly (main.py lines 559-574 and 719-734): a truthy
(non-empty) caller-supplied history wins; otherwise the in-memory cache entry
for the session; otherwise the empty transcript. -/
def assembleMessages (cache : String → Option (List ChatMsg)) (session_id : String)
    (conversation_history : Option (List (Option ChatMsg))) : List ChatMsg :=
  match conversation_history with
  | some h => if h.isEmpty then (cache session_id).getD [] else validHistory h
  | none => (cache session_id).getD []

/-- The `user_uuid = None; if user_id: try: uuid.UUID(user_id) except: pass`
idiom of `save_conversation_message` (main.py lines 133-138). -/
def parseOptUUID (parse : String → Option String) (user_id : Option String) : Option String :=
  if pyTruthyStr user_id then parse (user_id.getD "") else none

/-- Map-based update of every config row of one session, preserving all other
rows (the ORM attribute assignments followed by `commit`). -/
def updateConfigs (configs : List SessionConfig) (session_id : String)
    (f : SessionConfig → SessionConfig) : List SessionConfig :=
  configs.map (fun c => if c.session_id == session_id then f c else c)

/-- `save_conversation_message` (main.py lines 113-158): generate an embedding
(failure already degraded to `none` inside `generate_embedding`), parse the
optional user id (malformed ids silently dropped), insert the row and commit.
`saveFails` models the `except` path at lines 152-155: rollback, log, return
`None` — the database is then unchanged and the caller's flow continues. -/
def save_conversation_message (gen : String → Option (List ℚ))
    (parse : String → Option String) (now : Option String) (saveFails : Bool)
    (db : DB) (session_id role content : String) (user_id : Option String) : DB :=
  if saveFails then db
  else
    let embedding := gen content
    let user_uuid := parseOptUUID parse user_id
    { db with messages := db.messages ++
        [⟨db.messages.length, session_id, user_uuid, role, content, embedding, now⟩] }

/-- Environment of one chat turn: the embedding provider, uuid parsing, the
completion provider call (`bedrock_runtime.invoke_model` plus response
parsing; an exception is `Except.error`), the uuid4 generator, the wall
clock, and whether each of the two message inserts fails. -/
structure ChatEnv where
  gen : String → Option (List ℚ)
  parseUUID : String → Option String
  complete : Except Unit String
  freshId : String
  now : Option String
  saveUserFails : Bool
  saveAsstFails : Bool

/-- Process-wide mutable state touched by the handlers: the database and the
in-memory `conversation_history` transcript cache keyed by session id. -/
structure ChatState where
  db : DB
  cache : String → Option (List ChatMsg)

/-- Body of POST `/chat` (main.py lines 307-314). -/
structure ChatRequest where
  message : String
  session_id : Option String
  user_id : Option String
  model_id : String
  max_tokens : Option Nat
  temperature : Option ℚ
  conversation_history : Option (List (Option ChatMsg))

/-- Response of POST `/chat` (main.py lines 317-320). -/
structure ChatResponse where
  response : String
  model_id : String
  session_id : String
deriving DecidableEq

/-- Session-config upsert performed at the start of `/chat`
(main.py lines 536-553): with a truthy user id that parses as a UUID, either
create the session row or fill in a still-unset owner; a malformed id is
silently ignored (`except ValueError: pass`). -/
def chatConfigUpsert (parse : String → Option String) (db : DB) (session_id : String)
    (user_id : Option String) : DB :=
  if pyTruthyStr user_id then
    match parse (user_id.getD "") with
    | some u =>
      (match get_session_config session_id db with
       | none =>
         { db with configs := db.configs ++ [⟨session_id, some u, none, "chat"⟩] }
       | some config =>
         if config.user_id.isSome then db
         else { db with configs :=
                  updateConfigs db.configs session_id (fun c => { c with user_id := some u }) })
    | none => db
  else db

/-- The `/chat` handler (main.py lines 526-639).  Sampling parameters and the
assembled system prompt only flow into the opaque completion call.  A
completion failure reaches the outer `except` and becomes an HTTP 500 after
the user turn was already committed; the cache is only written after a
successful completion. -/
def chat (env : ChatEnv) (st : ChatState) (req : ChatRequest) :
    Except (Nat × String) ChatResponse × ChatState :=
  let session_id := resolveSessionId env.freshId req.session_id
  let db1 := chatConfigUpsert env.parseUUID st.db session_id req.user_id
  let _system_prompt := get_system_prompt session_id db1
  let messages0 := assembleMessages st.cache session_id req.conversation_history
  let messages1 := messages0 ++ [⟨"user", req.message⟩]
  let db2 := save_conversation_message env.gen env.parseUUID env.now env.saveUserFails
               db1 session_id "user" req.message req.user_id
  match env.complete with
  | Except.error _ =>
    (Except.error (500, "Bedrock API 오류"), { db := db2, cache := st.cache })
  | Except.ok assistant_message =>
    let db3 := save_conversation_message env.gen env.parseUUID env.now env.saveAsstFails
                 db2 session_id "assistant" assistant_message req.user_id
    let final := messages1 ++ [⟨"assistant", assistant_message⟩]
    (Except.ok ⟨assistant_message, req.model_id, session_id⟩,
     { db := db3,
       cache := fun k => if k == session_id then some (truncate50 final) else st.cache k })

/-- Frames the websocket handler sends back (main.py lines 692-810). -/
inductive WsFrame where
  | session : String → WsFrame
  | message : String → String → String → WsFrame
  | error : String → WsFrame
deriving DecidableEq

/-- One parsed inbound websocket frame; `message` defaults to `""` when the
key is missing (`request_data.get("message", "")`). -/
structure WsRequest where
  message : String
  session_id : Option String
  user_id : Option String
  model_id : String
  max_tokens : Option Nat
  temperature : Option ℚ
  conversation_history : Option (List (Option ChatMsg))

/-- Processing of one inbound message of the websocket loop
(main.py lines 686-810).  An empty message is a client-visible error frame
before any state is touched; a fresh session id is echoed in a `session`
frame; the per-turn logic then mirrors `/chat` (no session-config write on
this surface), with a completion failure reported as an error frame and the
cache left untouched.  The `active_connections` registry only tracks the
socket itself and is outside the claims. -/
def websocket_chat_turn (env : ChatEnv) (st : ChatState) (req : WsRequest) :
    List WsFrame × ChatState :=
  if req.message == "" then ([WsFrame.error "메시지가 비어있습니다."], st)
  else
    let session_id := resolveSessionId env.freshId req.session_id
    let sessionFrames := if pyTruthyStr req.session_id then [] else [WsFrame.session session_id]
    let messages0 := assembleMessages st.cache session_id req.conversation_history
    let messages1 := messages0 ++ [⟨"user", req.message⟩]
    let db2 := save_conversation_message env.gen env.parseUUID env.now env.saveUserFails
                 st.db session_id "user" req.message req.user_id
    match env.complete with
    | Except.error _ =>
      (sessionFrames ++ [WsFrame.error "처리 중 오류가 발생했습니다."],
       { db := db2, cache := st.cache })
    | Except.ok assistant_message =>
      let db3 := save_conversation_message env.gen env.parseUUID env.now env.saveAsstFails
                   db2 session_id "assistant" assistant_message req.user_id
      let final := messages1 ++ [⟨"assistant", assistant_message⟩]
      (sessionFrames ++ [WsFrame.message assistant_message req.model_id session_id],
       { db := db3,
         cache := fun k => if k == session_id then some (truncate50 final) else st.cache k })

/-- Body of POST `/personalities/select` (main.py lines 329-332). -/
structure SelectPersonalityRequest where
  session_id : String
  personality_id : Nat
  user_id : Option String

/-- Session upsert performed by `/personalities/select` once validation has
passed (main.py lines 448-464): create the row with mode `chat`, or update
persona and mode, assigning the user id whenever one was supplied. -/
def applySelectPersonality (db : DB) (req : SelectPersonalityRequest)
    (user_uuid : Option String) : DB :=
  match get_session_config req.session_id db with
  | none =>
    { db with configs := db.configs ++
        [⟨req.session_id, user_uuid, some req.personality_id, "chat"⟩] }
  | some _ =>
    { db with configs := updateConfigs db.configs req.session_id (fun c =>
        { c with personality_id := some req.personality_id, mode := "chat",
                 user_id := if user_uuid.isSome then user_uuid else c.user_id }) }

/-- The `/personalities/select` handler (main.py lines 430-478).  The persona
is looked up first (404 when absent), then a truthy user id must parse as a
UUID (400 otherwise), then the session row is created or updated.  The
success body only echoes the persona, so it is modelled as `Unit`. -/
def select_personality (parse : String → Option String) (db : DB)
    (req : SelectPersonalityRequest) : Except (Nat × String) Unit × DB :=
  match db.personalities.find? (fun p => p.id == req.personality_id) with
  | none => (Except.error (404, "성격을 찾을 수 없습니다."), db)
  | some _personality =>
    if pyTruthyStr req.user_id then
      match parse (req.user_id.getD "") with
      | none => (Except.error (400, "잘못된 user_id 형식입니다."), db)
      | some u => (Except.ok (), applySelectPersonality db req (some u))
    else (Except.ok (), applySelectPersonality db req none)

/-- Body of POST `/chat/roadmap/start` (main.py lines 335-337). -/
structure StartRoadmapRequest where
  session_id : String
  user_id : Option String

/-- The `/chat/roadmap/start` handler (main.py lines 481-523): validate the
optional user id (400 on a malformed one, before any state change), create or
update the session row with mode `roadmap`, commit, then drop the session's
in-memory transcript cache entry. -/
def start_roadmap (parse : String → Option String) (st : ChatState)
    (req : StartRoadmapRequest) : Except (Nat × String) Unit × ChatState :=
  let user_uuid! : Except (Nat × String) (Option String) :=
    if pyTruthyStr req.user_id then
      match parse (req.user_id.getD "") with
      | none => Except.error (400, "잘못된 user_id 형식입니다.")
      | some u => Except.ok (some u)
    else Except.ok none
  match user_uuid! with
  | Except.error e => (Except.error e, st)
  | Except.ok user_uuid =>
    let db1 :=
      match get_session_config req.session_id st.db with
      | none =>
        { st.db with configs := st.db.configs ++ [⟨req.session_id, user_uuid, none, "roadmap"⟩] }
      | some _ =>
        { st.db with configs := updateConfigs st.db.configs req.session_id (fun c =>
            { c with mode := "roadmap",
                     user_id := if user_uuid.isSome then user_uuid else c.user_id }) }
    (Except.ok (),
     { db := db1, cache := fun k => if k == req.session_id then none else st.cache k })

/-- The GET `/sessions/user/{user_id}` handler (main.py lines 385-407):
a user id that does not parse as a UUID is a 400; otherwise the sessions
owned by that user are returned together with the original id string. -/
def get_user_sessions (parse : String → Option String) (db : DB) (user_id : String) :
    Except (Nat × String) (String × List SessionConfig) :=
  match parse user_id with
  | none => Except.error (400, "잘못된 user_id 형식입니다.")
  | some u => Except.ok (user_id, db.configs.filter (fun s => s.user_id == some u))

/-! Helper lemmas about the IEEE comparisons and the stable descending sort. -/

theorem nfLt_asymm {a b : NFloat} (h : nfLt a b = true) : nfLt b a = false := by
  cases a <;> cases b <;> simp [nfLt] at h ⊢
  exact le_of_lt h

theorem nfGe_of_not_lt {a b : NFloat} (ha : a ≠ NFloat.nan) (hb : b ≠ NFloat.nan)
    (h : nfLt a b = false) : nfGe a b = true := by
  cases a with
  | nan => exact absurd rfl ha
  | val qa =>
    cases b with
    | nan => exact absurd rfl hb
    | val qb =>
      simp [nfLt] at h
      simpa [nfGe] using h

theorem insertDescBy_head? (key : α → NFloat) (x : α) (l : List α) :
    (insertDescBy key x l).head? = some x ∨ (insertDescBy key x l).head? = l.head? := by
  cases l with
  | nil => left; rfl
  | cons y ys =>
    cases h : nfLt (key x) (key y) with
    | true => right; simp [insertDescBy, h]
    | false => left; simp [insertDescBy, h]

theorem chain'_insertDescBy (key : α → NFloat) (x : α) :
    ∀ l : List α, List.Chain' (fun a b => nfLt (key a) (key b) = false) l →
      List.Chain' (fun a b => nfLt (key a) (key b) = false) (insertDescBy key x l) := by
  intro l
  induction l with
  | nil => intro _; simp [insertDescBy]
  | cons y ys ih =>
    intro h
    cases hxy : nfLt (key x) (key y) with
    | false =>
      simp only [insertDescBy, hxy, Bool.false_eq_true, if_false]
      exact List.chain'_cons.mpr ⟨hxy, h⟩
    | true =>
      simp only [insertDescBy, hxy, if_true]
      have hins := ih h.tail
      refine List.chain'_cons'.mpr ⟨?_, hins⟩
      intro hd hhd
      rcases insertDescBy_head? key x ys with hh | hh
      · rw [hh] at hhd
        cases hhd
        exact nfLt_asymm hxy
      · rw [hh] at hhd
        exact (List.chain'_cons'.mp h).1 hd hhd

theorem chain'_pySortDesc (key : α → NFloat) :
    ∀ l : List α, List.Chain' (fun a b => nfLt (key a) (key b) = false) (pySortDesc key l) := by
  intro l
  induction l with
  | nil => simp [pySortDesc]
  | cons x xs ih => exact chain'_insertDescBy key x _ ih

theorem sortedDescBy_of_chain' (key : α → NFloat) :
    ∀ l : List α, (∀ a ∈ l, key a ≠ NFloat.nan) →
      List.Chain' (fun a b => nfLt (key a) (key b) = false) l →
      sortedDescBy key l = true := by
  intro l
  induction l with
  | nil => intro _ _; rfl
  | cons a t ih =>
    intro hnn hch
    cases t with
    | nil => rfl
    | cons b t2 =>
      have h1 := List.chain'_cons.mp hch
      have hs := ih (fun x hx => hnn x (List.mem_cons_of_mem _ hx)) h1.2
      have hge := nfGe_of_not_lt (hnn a (List.mem_cons_self _ _))
        (hnn b (List.mem_cons_of_mem _ (List.mem_cons_self _ _))) h1.1
      simp [sortedDescBy, hge, hs]

theorem sorted_sortTakeMap (key1 : α → NFloat) (key2 : β → NFloat) (f : α → β)
    (hf : ∀ a, key2 (f a) = key1 a) (l : List α) (n : Nat)
    (hnn : ∀ b ∈ ((pySortDesc key1 l).take n).map f, key2 b ≠ NFloat.nan) :
    sortedDescBy key2 (((pySortDesc key1 l).take n).map f) = true := by
  apply sortedDescBy_of_chain' key2 _ hnn
  exact List.chain'_map_of_chain' f (fun a b hab => by rw [hf, hf]; exact hab)
    ((chain'_pySortDesc key1 l).take n)

theorem nativeResults_length (rows : List NativeRow) (limit : Nat) :
    (nativeResults rows limit).length ≤ limit := by
  simp only [nativeResults, List.length_map, List.length_take]
  exact min_le_left _ _

theorem nativeResults_sorted (rows : List NativeRow) (limit : Nat)
    (hnn : ∀ r ∈ nativeResults rows limit, r.similarity ≠ NFloat.nan) :
    sortedDescBy (fun r => r.similarity) (nativeResults rows limit) = true := by
  unfold nativeResults at hnn ⊢
  exact sorted_sortTakeMap _ _ _ (fun a => rfl) rows limit hnn

theorem fallbackResults_length (query_vec : List ℚ) (msgs : List ConversationMessage)
    (limit : Nat) : (fallbackResults query_vec msgs limit).length ≤ limit := by
  simp only [fallbackResults, List.length_map, List.length_take]
  exact min_le_left _ _

theorem fallbackResults_sorted (query_vec : List ℚ) (msgs : List ConversationMessage)
    (limit : Nat)
    (hnn : ∀ r ∈ fallbackResults query_vec msgs limit, r.similarity ≠ NFloat.nan) :
    sortedDescBy (fun r => r.similarity) (fallbackResults query_vec msgs limit) = true := by
  unfold fallbackResults at hnn ⊢
  exact sorted_sortTakeMap _ _ _ (fun a => rfl) _ limit hnn

/-! Claims about the similarity-search read path. -/

/-- C2 (counterexample): with the native query path down, a stored message
whose embedding is the zero vector `[0,0]` flows through the in-process
fallback without any division error being raised, but the similarity score it
is returned with is `nan` (the IEEE value of the `0.0/0.0` numpy performs),
not the exact 0 the claim states. -/
theorem C2_zero_norm_counterexample :
    search_similar_messages
        ⟨fun _ => some [1, 0], fun _ => none, fun _ => Except.error (),
         [⟨1, "s", none, "user", "zero", some [0, 0], none⟩], false⟩
        "q" none 5 =
      [⟨1, "s", "user", "zero", NFloat.nan, none⟩] ∧
    NFloat.nan ≠ NFloat.val 0 := by
  constructor
  · with_unfolding_all decide
  · decide

/-- C2 (amended): a stored embedding of zero norm never raises a division
error in the fallback — `cosine_similarity` is total — but its similarity is
the IEEE `nan` (not 0), and the message still enters the scored candidate
list with that `nan` score. -/
theorem C2_zero_norm_nan (query_vec : List ℚ) (msgs : List ConversationMessage)
    (m : ConversationMessage) (e : List ℚ) (hm : m ∈ msgs) (he : m.embedding = some e)
    (hne : e.isEmpty = false) (h0 : normSq e = 0) :
    cosine_similarity query_vec e = NFloat.nan ∧
    (⟨m, NFloat.nan⟩ : ScoredMessage) ∈ fallbackScored query_vec msgs := by
  have hcos : cosine_similarity query_vec e = NFloat.nan := by
    simp [cosine_similarity, h0]
  refine ⟨hcos, ?_⟩
  apply List.mem_filterMap.mpr
  exact ⟨m, hm, by simp [he, hne, hcos]⟩

/-- Witness for C2_zero_norm_nan at the concrete zero-vector message. -/
theorem C2_zero_norm_nan_witness :
    cosine_similarity [1, 0] [0, 0] = NFloat.nan ∧
    (⟨⟨1, "s", none, "user", "zero", some [0, 0], none⟩, NFloat.nan⟩ : ScoredMessage) ∈
      fallbackScored [1, 0] [⟨1, "s", none, "user", "zero", some [0, 0], none⟩] :=
  C2_zero_norm_nan [1, 0] [⟨1, "s", none, "user", "zero", some [0, 0], none⟩]
    ⟨1, "s", none, "user", "zero", some [0, 0], none⟩ [0, 0]
    (by with_unfolding_all decide) rfl rfl (by with_unfolding_all decide)

/-- C3: similarity search never propagates a failure: a missing query
embedding yields the empty sequence, and so does the combination of a failing
native query and a failing fallback query. -/
theorem C3_search_never_raises (env : SearchEnv) (query : String) (user_id : Option String)
    (limit : Nat) :
    (env.gen query = none → search_similar_messages env query user_id limit = []) ∧
    (env.fallbackFails = true → (∀ arg, env.native arg = Except.error ()) →
      search_similar_messages env query user_id limit = []) := by
  constructor
  · intro h
    simp [search_similar_messages, h]
  · intro hf hn
    unfold search_similar_messages
    cases env.gen query with
    | none => rfl
    | some qe =>
      by_cases he : qe.isEmpty
      · simp [he]
      · simp [he, hn, hf]

/-- Witness for C3_search_never_raises: a provider returning no embedding,
and an environment where both query paths fail. -/
theorem C3_search_never_raises_witness :
    search_similar_messages
        ⟨fun _ => none, fun _ => none, fun _ => Except.error (), [], true⟩ "q" none 5 = [] ∧
    search_similar_messages
        ⟨fun _ => some [1, 0], fun _ => none, fun _ => Except.error (),
         [⟨1, "s", none, "user", "m", some [1, 0], none⟩], true⟩ "q" none 5 = [] :=
  ⟨(C3_search_never_raises
      ⟨fun _ => none, fun _ => none, fun _ => Except.error (), [], true⟩ "q" none 5).1 rfl,
   (C3_search_never_raises
      ⟨fun _ => some [1, 0], fun _ => none, fun _ => Except.error (),
       [⟨1, "s", none, "user", "m", some [1, 0], none⟩], true⟩ "q" none 5).2 rfl
     (fun _ => rfl)⟩

/-- C4 (counterexample): on the fallback path a zero-norm stored embedding
receives a `nan` score; since every IEEE comparison against `nan` is false
the sort leaves it in front of a strictly positive score, so the returned
sequence is not sorted in descending order of score. -/
theorem C4_sorted_counterexample :
    search_similar_messages
        ⟨fun _ => some [1, 0], fun _ => none, fun _ => Except.error (),
         [⟨1, "s", none, "user", "zero", some [0, 0], none⟩,
          ⟨2, "s", none, "user", "one", some [1, 0], none⟩], false⟩
        "q" none 5 =
      [⟨1, "s", "user", "zero", NFloat.nan, none⟩,
       ⟨2, "s", "user", "one", NFloat.val 1, none⟩] ∧
    sortedDescBy (fun r => r.similarity)
      (search_similar_messages
        ⟨fun _ => some [1, 0], fun _ => none, fun _ => Except.error (),
         [⟨1, "s", none, "user", "zero", some [0, 0], none⟩,
          ⟨2, "s", none, "user", "one", some [1, 0], none⟩], false⟩
        "q" none 5) = false := by
  constructor
  · with_unfolding_all decide
  · with_unfolding_all decide

/-- C4 (amended): on every path the returned sequence has length at most
`limit`, and it is sorted in descending order of score provided no returned
score is the IEEE `nan` (which arises exactly from zero-norm embeddings). -/
theorem C4_sorted_truncated (env : SearchEnv) (query : String) (user_id : Option String)
    (limit : Nat) :
    (search_similar_messages env query user_id limit).length ≤ limit ∧
    ((∀ r ∈ search_similar_messages env query user_id limit, r.similarity ≠ NFloat.nan) →
      sortedDescBy (fun r => r.similarity)
        (search_similar_messages env query user_id limit) = true) := by
  unfold search_similar_messages
  cases env.gen query with
  | none => exact ⟨by simp, fun _ => rfl⟩
  | some qe =>
    by_cases he : qe.isEmpty
    · simp only [he, if_true]
      exact ⟨by simp, fun _ => rfl⟩
    · simp only [he, if_false]
      cases env.native (if pyTruthyStr user_id then env.parseUUID (user_id.getD "") else none) with
      | ok rows => exact ⟨nativeResults_length rows limit, nativeResults_sorted rows limit⟩
      | error e =>
        by_cases hf : env.fallbackFails
        · simp only [hf, if_true]
          exact ⟨by simp, fun _ => rfl⟩
        · simp only [hf, if_false]
          exact ⟨fallbackResults_length qe _ limit, fallbackResults_sorted qe _ limit⟩

/-- Witness for C4_sorted_truncated on a concrete fallback search whose
scores are all non-nan. -/
theorem C4_sorted_truncated_witness :
    (search_similar_messages
        ⟨fun _ => some [1, 0], fun _ => none, fun _ => Except.error (),
         [⟨1, "s", none, "user", "one", some [1, 0], none⟩], false⟩ "q" none 5).length ≤ 5 ∧
    sortedDescBy (fun r => r.similarity)
      (search_similar_messages
        ⟨fun _ => some [1, 0], fun _ => none, fun _ => Except.error (),
         [⟨1, "s", none, "user", "one", some [1, 0], none⟩], false⟩ "q" none 5) = true :=
  ⟨(C4_sorted_truncated
      ⟨fun _ => some [1, 0], fun _ => none, fun _ => Except.error (),
       [⟨1, "s", none, "user", "one", some [1, 0], none⟩], false⟩ "q" none 5).1,
   (C4_sorted_truncated
      ⟨fun _ => some [1, 0], fun _ => none, fun _ => Except.error (),
       [⟨1, "s", none, "user", "one", some [1, 0], none⟩], false⟩ "q" none 5).2
     (by with_unfolding_all decide)⟩

/-- C9: a user filter that does not parse as a UUID is silently dropped on
both query paths, so the search result is exactly the unfiltered one. -/
theorem C9_invalid_filter_dropped (env : SearchEnv) (query : String) (uid : String)
    (limit : Nat) (h : env.parseUUID uid = none) :
    search_similar_messages env query (some uid) limit =
      search_similar_messages env query none limit := by
  have harg : (if pyTruthyStr (some uid) then env.parseUUID ((some uid).getD "") else none) =
      (if pyTruthyStr (none : Option String) then env.parseUUID ((none : Option String).getD "")
       else none) := by
    by_cases hu : uid = ""
    · subst hu; rfl
    · simp [pyTruthyStr, hu, h]
  have hcand : fallbackCandidates env (some uid) = fallbackCandidates env none := by
    unfold fallbackCandidates
    by_cases hu : uid = ""
    · subst hu; rfl
    · simp [pyTruthyStr, hu, h]
  unfold search_similar_messages
  rw [harg, hcand]

/-- Witness for C9_invalid_filter_dropped with a parser rejecting every
string. -/
theorem C9_invalid_filter_dropped_witness :
    search_similar_messages
        ⟨fun _ => some [1, 0], fun _ => none, fun _ => Except.error (),
         [⟨1, "s", some "u", "user", "m", some [1, 0], none⟩], false⟩ "q" (some "BAD") 5 =
      search_similar_messages
        ⟨fun _ => some [1, 0], fun _ => none, fun _ => Except.error (),
         [⟨1, "s", some "u", "user", "m", some [1, 0], none⟩], false⟩ "q" none 5 :=
  C9_invalid_filter_dropped
    ⟨fun _ => some [1, 0], fun _ => none, fun _ => Except.error (),
     [⟨1, "s", some "u", "user", "m", some [1, 0], none⟩], false⟩ "q" "BAD" 5 rfl

/-! Helper lemmas about the handler state transitions. -/

theorem chatConfigUpsert_messages (parse : String → Option String) (db : DB)
    (session_id : String) (user_id : Option String) :
    (chatConfigUpsert parse db session_id user_id).messages = db.messages := by
  unfold chatConfigUpsert
  repeat' split
  all_goals rfl

theorem save_conversation_message_user_eq (gen : String → Option (List ℚ))
    (parse : String → Option String) (now : Option String) (saveFails : Bool) (db : DB)
    (session_id role content : String) {a b : Option String}
    (h : parseOptUUID parse a = parseOptUUID parse b) :
    save_conversation_message gen parse now saveFails db session_id role content a =
      save_conversation_message gen parse now saveFails db session_id role content b := by
  unfold save_conversation_message
  rw [h]

theorem get_session_config_updateConfigs (l : List SessionConfig) (sid : String)
    (f : SessionConfig → SessionConfig) (hf : ∀ c, (f c).session_id = c.session_id) :
    (updateConfigs l sid f).find? (fun c => c.session_id == sid) =
      (l.find? (fun c => c.session_id == sid)).map f := by
  induction l with
  | nil => rfl
  | cons c t ih =>
    cases hcs : c.session_id == sid with
    | true => simp [updateConfigs, List.find?, hcs, hf]
    | false => simpa [updateConfigs, List.find?, hcs] using ih

theorem truncate50_length (messages : List ChatMsg) : (truncate50 messages).length ≤ 50 := by
  unfold truncate50
  split
  · simp only [List.length_drop]
    omega
  · omega

theorem truncate50_exceeds (messages : List ChatMsg) (h : messages.length > 50) :
    truncate50 messages = messages.drop (messages.length - 50) ∧
      (truncate50 messages).length = 50 := by
  unfold truncate50
  rw [if_pos h]
  refine ⟨rfl, ?_⟩
  simp only [List.length_drop]
  omega

/-! Claims about the session registry and the conversation orchestrator. -/

/-- C1: the effective system prompt follows the strict priority chain of the
specification — roadmap mode wins over any bound persona, then a bound and
existing persona, then the designated default persona "베타인", then a generic
fallback string.  The well-formedness hypothesis says no persona row carries
id 0 (ids come from a serial column starting at 1), which keeps the Python
truthiness test `if config.personality_id:` aligned with "a persona is
bound". -/
theorem C1_effective_prompt_priority (db : DB) (session_id : String)
    (hwf : ∀ p ∈ db.personalities, p.id ≠ 0) :
    get_system_prompt session_id db = effectivePromptSpec db session_id := by
  unfold get_system_prompt effectivePromptSpec
  cases hc : get_session_config session_id db with
  | none => simp [hc, defaultPersonalityPrompt]
  | some c =>
    cases hm : c.mode == "roadmap" with
    | true => simp [hc, hm, Option.any]
    | false =>
      cases hp : c.personality_id with
      | none => simp [hc, hm, hp, Option.any, pyTruthyNat, defaultPersonalityPrompt]
      | some pid =>
        by_cases hz : pid = 0
        · subst hz
          have hfind : db.personalities.find? (fun p => p.id == 0) = none := by
            apply List.find?_eq_none.mpr
            intro p hp2
            simpa using hwf p hp2
          simp [hc, hm, hp, Option.any, pyTruthyNat, hfind, defaultPersonalityPrompt]
        · cases hfind : db.personalities.find? (fun p => p.id == pid) with
          | none =>
            simp [hc, hm, hp, hz, Option.any, pyTruthyNat, hfind, defaultPersonalityPrompt]
          | some p =>
            simp [hc, hm, hp, hz, Option.any, pyTruthyNat, hfind]

/-- Witness for C1_effective_prompt_priority on a session bound to the seeded
persona. -/
theorem C1_effective_prompt_priority_witness :
    get_system_prompt "s" ⟨[⟨1, "베타인", none, "p1"⟩], [⟨"s", none, some 1, "chat"⟩], []⟩ =
      effectivePromptSpec ⟨[⟨1, "베타인", none, "p1"⟩], [⟨"s", none, some 1, "chat"⟩], []⟩ "s" :=
  C1_effective_prompt_priority ⟨[⟨1, "베타인", none, "p1"⟩], [⟨"s", none, some 1, "chat"⟩], []⟩
    "s" (by decide)

/-- C5: when the completion provider call fails, `/chat` reports an explicit
500 failure with no partial response, the user turn committed before the call
(embedding included) stays in the message log with no compensating rollback,
and the in-memory transcript cache is left untouched. -/
theorem C5_completion_failure (env : ChatEnv) (st : ChatState) (req : ChatRequest)
    (hfail : env.complete = Except.error ()) (hsave : env.saveUserFails = false) :
    (chat env st req).1 = Except.error (500, "Bedrock API 오류") ∧
    (chat env st req).2.cache = st.cache ∧
    (chat env st req).2.db.messages = st.db.messages ++
      [⟨st.db.messages.length, resolveSessionId env.freshId req.session_id,
        parseOptUUID env.parseUUID req.user_id, "user", req.message,
        env.gen req.message, env.now⟩] := by
  unfold chat
  rw [hfail]
  refine ⟨rfl, rfl, ?_⟩
  unfold save_conversation_message
  rw [hsave]
  simp only [Bool.false_eq_true, if_false, chatConfigUpsert_messages]

/-- Witness for C5_completion_failure at a concrete failing turn. -/
theorem C5_completion_failure_witness :
    (chat ⟨fun _ => some [1, 0], fun t => some t, Except.error (), "F", some "t", false, false⟩
        ⟨⟨[], [], []⟩, fun _ => none⟩
        ⟨"hi", some "s", none, "m", none, none, none⟩).1 =
      Except.error (500, "Bedrock API 오류") ∧
    (chat ⟨fun _ => some [1, 0], fun t => some t, Except.error (), "F", some "t", false, false⟩
        ⟨⟨[], [], []⟩, fun _ => none⟩
        ⟨"hi", some "s", none, "m", none, none, none⟩).2.cache = (fun _ => none) ∧
    (chat ⟨fun _ => some [1, 0], fun t => some t, Except.error (), "F", some "t", false, false⟩
        ⟨⟨[], [], []⟩, fun _ => none⟩
        ⟨"hi", some "s", none, "m", none, none, none⟩).2.db.messages =
      [] ++ [⟨0, resolveSessionId "F" (some "s"), parseOptUUID (fun t => some t) none, "user",
              "hi", some [1, 0], some "t"⟩] :=
  C5_completion_failure
    ⟨fun _ => some [1, 0], fun t => some t, Except.error (), "F", some "t", false, false⟩
    ⟨⟨[], [], []⟩, fun _ => none⟩ ⟨"hi", some "s", none, "m", none, none, none⟩ rfl rfl

/-- C6: after a successfully completed turn on either delivery surface, the
cache entry of the turn's session holds the assembled transcript truncated by
`truncate50`; `truncate50` keeps at most 50 messages, and keeps exactly the
most recent 50 whenever the assembled transcript exceeds 50. -/
theorem C6_cache_truncation (env : ChatEnv) (st : ChatState) (req : ChatRequest)
    (wreq : WsRequest) (a : String) (hok : env.complete = Except.ok a)
    (hw : wreq.message ≠ "") :
    (chat env st req).2.cache (resolveSessionId env.freshId req.session_id) =
      some (truncate50
        ((assembleMessages st.cache (resolveSessionId env.freshId req.session_id)
            req.conversation_history ++ [⟨"user", req.message⟩]) ++ [⟨"assistant", a⟩])) ∧
    (websocket_chat_turn env st wreq).2.cache (resolveSessionId env.freshId wreq.session_id) =
      some (truncate50
        ((assembleMessages st.cache (resolveSessionId env.freshId wreq.session_id)
            wreq.conversation_history ++ [⟨"user", wreq.message⟩]) ++ [⟨"assistant", a⟩])) ∧
    (∀ messages : List ChatMsg, (truncate50 messages).length ≤ 50) ∧
    (∀ messages : List ChatMsg, messages.length > 50 →
      truncate50 messages = messages.drop (messages.length - 50) ∧
        (truncate50 messages).length = 50) := by
  refine ⟨?_, ?_, truncate50_length, truncate50_exceeds⟩
  · unfold chat
    rw [hok]
    simp
  · unfold websocket_chat_turn
    have hw2 : (wreq.message == "") = false := by
      simpa using hw
    rw [hw2]
    simp only [Bool.false_eq_true, if_false]
    rw [hok]
    simp

/-- Witness for C6_cache_truncation at a concrete completed turn on both
surfaces. -/
theorem C6_cache_truncation_witness :
    (chat ⟨fun _ => some [1, 0], fun t => some t, Except.ok "yo", "F", some "t", false, false⟩
        ⟨⟨[], [], []⟩, fun _ => none⟩
        ⟨"hi", some "s", none, "m", none, none, none⟩).2.cache
        (resolveSessionId "F" (some "s")) =
      some (truncate50
        ((assembleMessages (fun _ => none) (resolveSessionId "F" (some "s")) none ++
            [⟨"user", "hi"⟩]) ++ [⟨"assistant", "yo"⟩])) ∧
    (websocket_chat_turn
        ⟨fun _ => some [1, 0], fun t => some t, Except.ok "yo", "F", some "t", false, false⟩
        ⟨⟨[], [], []⟩, fun _ => none⟩
        ⟨"hi", some "s", none, "m", none, none, none⟩).2.cache
        (resolveSessionId "F" (some "s")) =
      some (truncate50
        ((assembleMessages (fun _ => none) (resolveSessionId "F" (some "s")) none ++
            [⟨"user", "hi"⟩]) ++ [⟨"assistant", "yo"⟩])) ∧
    (∀ messages : List ChatMsg, (truncate50 messages).length ≤ 50) ∧
    (∀ messages : List ChatMsg, messages.length > 50 →
      truncate50 messages = messages.drop (messages.length - 50) ∧
        (truncate50 messages).length = 50) :=
  C6_cache_truncation
    ⟨fun _ => some [1, 0], fun t => some t, Except.ok "yo", "F", some "t", false, false⟩
    ⟨⟨[], [], []⟩, fun _ => none⟩ ⟨"hi", some "s", none, "m", none, none, none⟩
    ⟨"hi", some "s", none, "m", none, none, none⟩ "yo" rfl (by decide)

/-- C7 (counterexample): on a session whose owner is already set to user "A",
selecting a persona while supplying user "B" overwrites the stored owner with
"B" — the stored user id does not stay unchanged. -/
theorem C7_user_overwrite_counterexample :
    get_session_config "s"
        (⟨[⟨1, "베타인", none, "p1"⟩], [⟨"s", some "A", some 1, "chat"⟩], []⟩ : DB) =
      some ⟨"s", some "A", some 1, "chat"⟩ ∧
    get_session_config "s"
        (select_personality (fun t => some t)
          ⟨[⟨1, "베타인", none, "p1"⟩], [⟨"s", some "A", some 1, "chat"⟩], []⟩
          ⟨"s", 1, some "B"⟩).2 =
      some ⟨"s", some "B", some 1, "chat"⟩ ∧
    (some "B" : Option String) ≠ some "A" := by
  refine ⟨rfl, rfl, by decide⟩

/-- C7 (amended): `/personalities/select` on an existing session sets the
stored user id to the supplied one whenever a valid user id is provided —
even when an owner is already set (unlike `/chat`, which only fills in a
missing owner). -/
theorem C7_user_overwrite (parse : String → Option String) (db : DB)
    (req : SelectPersonalityRequest) (u : String) (c : SessionConfig) (p : Personality)
    (hper : db.personalities.find? (fun q => q.id == req.personality_id) = some p)
    (htr : pyTruthyStr req.user_id = true)
    (hp : parse (req.user_id.getD "") = some u)
    (hc : get_session_config req.session_id db = some c) :
    (select_personality parse db req).1 = Except.ok () ∧
    get_session_config req.session_id (select_personality parse db req).2 =
      some { c with personality_id := some req.personality_id, mode := "chat",
                    user_id := some u } := by
  unfold select_personality
  rw [hper, htr]
  simp only [if_true, hp]
  refine ⟨trivial, ?_⟩
  unfold applySelectPersonality
  unfold get_session_config at hc ⊢
  rw [hc]
  dsimp only
  rw [get_session_config_updateConfigs db.configs req.session_id
        (fun c => { c with
                    personality_id := some req.personality_id
                    mode := "chat"
                    user_id := if (some u).isSome then some u else c.user_id })
        (fun _ => rfl), hc]
  rfl

/-- Witness for C7_user_overwrite at the concrete overwriting call. -/
theorem C7_user_overwrite_witness :
    (select_personality (fun t => some t)
        ⟨[⟨1, "베타인", none, "p1"⟩], [⟨"s", some "A", some 1, "chat"⟩], []⟩
        ⟨"s", 1, some "B"⟩).1 = Except.ok () ∧
    get_session_config "s"
        (select_personality (fun t => some t)
          ⟨[⟨1, "베타인", none, "p1"⟩], [⟨"s", some "A", some 1, "chat"⟩], []⟩
          ⟨"s", 1, some "B"⟩).2 =
      some ⟨"s", some "B", some 1, "chat"⟩ :=
  C7_user_overwrite (fun t => some t)
    ⟨[⟨1, "베타인", none, "p1"⟩], [⟨"s", some "A", some 1, "chat"⟩], []⟩
    ⟨"s", 1, some "B"⟩ "B" ⟨"s", some "A", some 1, "chat"⟩ ⟨1, "베타인", none, "p1"⟩
    rfl rfl rfl rfl

theorem chat_ignores_bad_user (env : ChatEnv) (st : ChatState) (req : ChatRequest)
    (uid : String) (hu : req.user_id = some uid) (h : env.parseUUID uid = none) :
    chat env st req = chat env st { req with user_id := none } := by
  have hup : chatConfigUpsert env.parseUUID st.db
      (resolveSessionId env.freshId req.session_id) req.user_id = st.db := by
    rw [hu]
    unfold chatConfigUpsert
    by_cases h0 : uid = ""
    · subst h0; rfl
    · simp [pyTruthyStr, h0, h]
  have hpar : parseOptUUID env.parseUUID req.user_id = parseOptUUID env.parseUUID none := by
    rw [hu]
    unfold parseOptUUID
    by_cases h0 : uid = ""
    · subst h0; rfl
    · simp [pyTruthyStr, h0, h]
  unfold chat
  dsimp only
  cases env.complete with
  | error e =>
    dsimp only
    rw [hup, save_conversation_message_user_eq _ _ _ _ _ _ _ _ hpar]
    rfl
  | ok a =>
    dsimp only
    rw [hup, save_conversation_message_user_eq _ _ _ _ _ _ _ _ hpar,
        save_conversation_message_user_eq _ _ _ _ _ _ _ _ hpar]
    rfl

/-- C8 (counterexample): `/chat` does not report a validation error for a
user id in a bad format: with a parser rejecting "BAD" the turn succeeds and
no 4xx-equivalent failure is returned. -/
theorem C8_invalid_user_id_counterexample :
    (chat ⟨fun _ => some [1, 0], fun _ => none, Except.ok "yo", "F", some "t", false, false⟩
        ⟨⟨[], [], []⟩, fun _ => none⟩ ⟨"hi", some "s", some "BAD", "m", none, none, none⟩).1 =
      Except.ok ⟨"yo", "m", "s"⟩ ∧
    (∀ detail : String,
      (chat ⟨fun _ => some [1, 0], fun _ => none, Except.ok "yo", "F", some "t", false, false⟩
          ⟨⟨[], [], []⟩, fun _ => none⟩
          ⟨"hi", some "s", some "BAD", "m", none, none, none⟩).1 ≠
        Except.error (400, detail)) := by
  refine ⟨rfl, ?_⟩
  intro detail hc
  rw [show (chat ⟨fun _ => some [1, 0], fun _ => none, Except.ok "yo", "F", some "t",
        false, false⟩ ⟨⟨[], [], []⟩, fun _ => none⟩
        ⟨"hi", some "s", some "BAD", "m", none, none, none⟩).1 =
      Except.ok ⟨"yo", "m", "s"⟩ from rfl] at hc
  cases hc

/-- C8 (amended): a malformed user id is reported as a 400 with a
human-readable message by `/personalities/select` (once the persona exists),
`/chat/roadmap/start` and `/sessions/user/{user_id}`, but `/chat` silently
ignores it: the turn behaves exactly as if no user id had been supplied. -/
theorem C8_invalid_user_id_handling :
    (∀ (parse : String → Option String) (db : DB) (req : SelectPersonalityRequest)
        (p : Personality),
        db.personalities.find? (fun q => q.id == req.personality_id) = some p →
        pyTruthyStr req.user_id = true → parse (req.user_id.getD "") = none →
        select_personality parse db req =
          (Except.error (400, "잘못된 user_id 형식입니다."), db)) ∧
    (∀ (parse : String → Option String) (st : ChatState) (req : StartRoadmapRequest),
        pyTruthyStr req.user_id = true → parse (req.user_id.getD "") = none →
        start_roadmap parse st req =
          (Except.error (400, "잘못된 user_id 형식입니다."), st)) ∧
    (∀ (parse : String → Option String) (db : DB) (uid : String), parse uid = none →
        get_user_sessions parse db uid = Except.error (400, "잘못된 user_id 형식입니다.")) ∧
    (∀ (env : ChatEnv) (st : ChatState) (req : ChatRequest) (uid : String),
        req.user_id = some uid → env.parseUUID uid = none →
        chat env st req = chat env st { req with user_id := none }) := by
  refine ⟨?_, ?_, ?_, chat_ignores_bad_user⟩
  · intro parse db req p hper htr hp
    unfold select_personality
    rw [hper, htr]
    simp only [if_true, hp]
  · intro parse st req htr hp
    unfold start_roadmap
    rw [htr]
    simp only [if_true, hp]
  · intro parse db uid h
    unfold get_user_sessions
    rw [h]

/-- Witness for C8_invalid_user_id_handling at concrete malformed ids on all
four endpoints. -/
theorem C8_invalid_user_id_handling_witness :
    select_personality (fun _ => none) ⟨[⟨1, "베타인", none, "p1"⟩], [], []⟩
        ⟨"s", 1, some "BAD"⟩ =
      (Except.error (400, "잘못된 user_id 형식입니다."), ⟨[⟨1, "베타인", none, "p1"⟩], [], []⟩) ∧
    start_roadmap (fun _ => none) ⟨⟨[], [], []⟩, fun _ => none⟩ ⟨"s", some "BAD"⟩ =
      (Except.error (400, "잘못된 user_id 형식입니다."), ⟨⟨[], [], []⟩, fun _ => none⟩) ∧
    get_user_sessions (fun _ => none) ⟨[], [], []⟩ "BAD" =
      Except.error (400, "잘못된 user_id 형식입니다.") ∧
    chat ⟨fun _ => some [1, 0], fun _ => none, Except.ok "yo", "F", some "t", false, false⟩
        ⟨⟨[], [], []⟩, fun _ => none⟩ ⟨"hi", some "s", some "BAD", "m", none, none, none⟩ =
      chat ⟨fun _ => some [1, 0], fun _ => none, Except.ok "yo", "F", some "t", false, false⟩
        ⟨⟨[], [], []⟩, fun _ => none⟩ ⟨"hi", some "s", none, "m", none, none, none⟩ :=
  ⟨C8_invalid_user_id_handling.1 (fun _ => none) ⟨[⟨1, "베타인", none, "p1"⟩], [], []⟩
      ⟨"s", 1, some "BAD"⟩ ⟨1, "베타인", none, "p1"⟩ rfl rfl rfl,
   C8_invalid_user_id_handling.2.1 (fun _ => none) ⟨⟨[], [], []⟩, fun _ => none⟩
      ⟨"s", some "BAD"⟩ rfl rfl,
   C8_invalid_user_id_handling.2.2.1 (fun _ => none) ⟨[], [], []⟩ "BAD" rfl,
   C8_invalid_user_id_handling.2.2.2
      ⟨fun _ => some [1, 0], fun _ => none, Except.ok "yo", "F", some "t", false, false⟩
      ⟨⟨[], [], []⟩, fun _ => none⟩ ⟨"hi", some "s", some "BAD", "m", none, none, none⟩
      "BAD" rfl rfl⟩

/-- C10: starting roadmap mode deletes the session's entry from the
in-memory transcript cache, leaves every other session's entry unchanged, and
the session's next turn without caller-supplied history therefore assembles
an empty prior transcript. -/
theorem C10_roadmap_cache_reset (parse : String → Option String) (st : ChatState)
    (req : StartRoadmapRequest) (h : (start_roadmap parse st req).1 = Except.ok ()) :
    (start_roadmap parse st req).2.cache req.session_id = none ∧
    (∀ k, k ≠ req.session_id → (start_roadmap parse st req).2.cache k = st.cache k) ∧
    assembleMessages (start_roadmap parse st req).2.cache req.session_id none = [] := by
  unfold start_roadmap at h ⊢
  by_cases ht : pyTruthyStr req.user_id = true
  · rw [ht] at h ⊢
    simp only [if_true] at h ⊢
    cases hp : parse (req.user_id.getD "") with
    | none => rw [hp] at h; simp at h
    | some u =>
      refine ⟨by simp, ?_, ?_⟩
      · intro k hk
        simp [hk]
      · simp [assembleMessages]
  · have ht2 : pyTruthyStr req.user_id = false := by
      simpa using ht
    rw [ht2] at h ⊢
    simp only [Bool.false_eq_true, if_false] at h ⊢
    refine ⟨by simp, ?_, ?_⟩
    · intro k hk
      simp [hk]
    · simp [assembleMessages]

/-- Witness for C10_roadmap_cache_reset at a concrete session with a cached
transcript. -/
theorem C10_roadmap_cache_reset_witness :
    (start_roadmap (fun t => some t)
        ⟨⟨[], [⟨"s", none, none, "chat"⟩], []⟩,
         fun k => if k == "s" then some [⟨"user", "old"⟩] else some [⟨"user", "other"⟩]⟩
        ⟨"s", none⟩).2.cache "s" = none ∧
    (start_roadmap (fun t => some t)
        ⟨⟨[], [⟨"s", none, none, "chat"⟩], []⟩,
         fun k => if k == "s" then some [⟨"user", "old"⟩] else some [⟨"user", "other"⟩]⟩
        ⟨"s", none⟩).2.cache "z" = some [⟨"user", "other"⟩] ∧
    assembleMessages
        (start_roadmap (fun t => some t)
          ⟨⟨[], [⟨"s", none, none, "chat"⟩], []⟩,
           fun k => if k == "s" then some [⟨"user", "old"⟩] else some [⟨"user", "other"⟩]⟩
          ⟨"s", none⟩).2.cache "s" none = [] :=
  ⟨(C10_roadmap_cache_reset (fun t => some t)
      ⟨⟨[], [⟨"s", none, none, "chat"⟩], []⟩,
       fun k => if k == "s" then some [⟨"user", "old"⟩] else some [⟨"user", "other"⟩]⟩
      ⟨"s", none⟩ rfl).1,
   ((C10_roadmap_cache_reset (fun t => some t)
      ⟨⟨[], [⟨"s", none, none, "chat"⟩], []⟩,
       fun k => if k == "s" then some [⟨"user", "old"⟩] else some [⟨"user", "other"⟩]⟩
      ⟨"s", none⟩ rfl).2.1 "z" (by decide)).trans rfl,
   (C10_roadmap_cache_reset (fun t => some t)
      ⟨⟨[], [⟨"s", none, none, "chat"⟩], []⟩,
       fun k => if k == "s" then some [⟨"user", "old"⟩] else some [⟨"user", "other"⟩]⟩
      ⟨"s", none⟩ rfl).2.2⟩

end AiChat
